import Mathlib

/- Verification development for the turn-processing core of the compliance-assistant
agent (services/agent/agent.py).  The definitions below are a shallow embedding of the
relevant source functions: messages and state deltas become Lean structures, the
per-node state-delta dictionaries become a `Delta` structure whose `Option` fields model
key presence, and external collaborators (the LLM client, the stdlib JSON parser, the
backend REST API, Redis) appear as parameters or as explicit inputs. -/

namespace BlueMagma

/-- A LangChain `AIMessage` as emitted by the agent graph nodes: text content plus the
`additional_kwargs` flags used for internal tool-status / loop-warning messages. -/
structure AMsg where
  content : String
  internal_tool_status : Bool := false
  loop_warning : Bool := false
  loop_count : Nat := 0
  deriving Repr, DecidableEq

/-- One entry of the tool-call trace ring buffer (`tool_call_traces`).  The `time` and
`turn_id` fields of the source dict are observability-only and are not read by any of
the embedded code, so they are omitted. -/
structure TraceEntry where
  tool : String
  args : List String
  status : String
  error : Option String := none
  deriving Repr, DecidableEq

/-- A node-returned state delta (the partial `AgentState` dict a LangGraph node
returns).  A field of value `none` models the key being absent from the dict; for the
`Optional[...]` source fields (`requested_tool`, `requested_tools`,
`requested_workflow`) the inner `Option` models the Python value `None`. -/
structure Delta where
  messages : Option (List AMsg) := none
  has_tool_call : Option Bool := none
  requested_tool : Option (Option (List String)) := none
  requested_tools : Option (Option (List (List String))) := none
  has_workflow : Option Bool := none
  requested_workflow : Option (Option (List String)) := none
  tool_should_loopback : Option Bool := none
  tool_error : Option Bool := none
  tool_call_traces : Option (List TraceEntry) := none
  tokens_used : Option Nat := none
  deriving Repr, DecidableEq

/-- The slice of the graph `AgentState` that the embedded code reads or writes.
`entry_point` stands for `state["context"]["entry_point"]` (the only context key the
embedded dispatch code reads, defaulting to "project_view"). -/
structure AgentStateM where
  messages : List AMsg := []
  entry_point : String := "project_view"
  has_tool_call : Bool := false
  requested_tool : Option (List String) := none
  requested_tools : Option (List (List String)) := none
  has_workflow : Bool := false
  requested_workflow : Option (List String) := none
  tool_should_loopback : Bool := true
  tool_error : Bool := false
  tool_call_traces : List TraceEntry := []
  tokens_used : Nat := 0
  deriving Repr, DecidableEq

/-- Python slice `l[-n:]` for n > 0 (the embedded code only uses n = 5 and n = 100). -/
def lastN {α : Type} (n : Nat) (l : List α) : List α := l.drop (l.length - n)

/-- LangGraph channel merge of a node delta into the graph state: the `messages`
channel is `Annotated[List, add]` (agent.py line 355) so deltas append; every other
field is a plain channel, overwritten when the delta carries the key. -/
def apply_node_delta (s : AgentStateM) (d : Delta) : AgentStateM :=
  { s with
    messages := s.messages ++ d.messages.getD []
    has_tool_call := d.has_tool_call.getD s.has_tool_call
    requested_tool := match d.requested_tool with
      | some v => v
      | none => s.requested_tool
    requested_tools := match d.requested_tools with
      | some v => v
      | none => s.requested_tools
    has_workflow := d.has_workflow.getD s.has_workflow
    requested_workflow := match d.requested_workflow with
      | some v => v
      | none => s.requested_workflow
    tool_should_loopback := d.tool_should_loopback.getD s.tool_should_loopback
    tool_error := d.tool_error.getD s.tool_error
    tool_call_traces := d.tool_call_traces.getD s.tool_call_traces
    tokens_used := d.tokens_used.getD s.tokens_used }

-- ======================================================================
-- C3: token-to-credit conversion and the backend credit-subtraction payload
-- ======================================================================

/-- Set in RouterAgent.__init__ (agent.py line 481): 1000 tokens = 1 credit. -/
def tokens_per_credit : Nat := 1000

/-- Embeds RouterAgent.calculate_credits_consumed (agent.py lines 1122-1124):
exact division of tokens by `tokens_per_credit` (Python float division, modelled
exactly over the rationals). -/
def calculate_credits_consumed (tokens_used : Nat) : ℚ :=
  (tokens_used : ℚ) / (tokens_per_credit : ℚ)

/-- Python truthiness of an optional string (`None` and the empty string are falsy). -/
def pyTruthy (s : Option String) : Bool :=
  match s with
  | none => false
  | some t => !(t == "")

/-- Embeds RouterAgent.update_user_credits (agent.py lines 1126-1154) up to the REST
call: returns the integer `credits` payload of the subtract request, or `none` when
the call is skipped (missing internal key, missing org id, or non-positive ceiling).
The HTTP request itself is an external collaborator and is not modelled. -/
def update_user_credits (internal_api_key : Option String) (org_id : Option String)
    (credits_consumed : ℚ) : Option Int :=
  if !(pyTruthy internal_api_key) then none
  else if !(pyTruthy org_id) then none
  else
    let credits_float : ℚ := max credits_consumed 0
    let credits_to_subtract : Int := ⌈credits_float⌉
    if credits_to_subtract ≤ 0 then none else some credits_to_subtract

-- ======================================================================
-- C10: snapshot message (de)serialization
-- ======================================================================

/-- A LangChain message as handled by the snapshot (de)serializers: the three concrete
role classes plus `other`, standing for any message object whose `type` attribute is
some other string. -/
inductive LCMessage where
  | human (content : String)
  | ai (content : String)
  | system (content : String)
  | other (ty : String) (content : String)
  deriving Repr, DecidableEq

/-- The `type` attribute read by _serialize_message (LangChain sets "human", "ai",
"system" for the three concrete classes). -/
def LCMessage.msgType : LCMessage → String
  | .human _ => "human"
  | .ai _ => "ai"
  | .system _ => "system"
  | .other ty _ => ty

/-- The string content of a message. -/
def LCMessage.content : LCMessage → String
  | .human c => c
  | .ai c => c
  | .system c => c
  | .other _ c => c

/-- The JSON-shaped dict produced by _serialize_message. -/
structure SerializedMsg where
  ty : String
  content : String
  deriving Repr, DecidableEq

/-- Embeds RouterAgent._serialize_message (agent.py lines 1094-1101). -/
def serialize_message (m : LCMessage) : SerializedMsg :=
  { ty := m.msgType, content := m.content }

/-- Python str.lower restricted to ASCII case mapping, written so that it evaluates
inside the kernel (String.toLower does not reduce definitionally). -/
def pyLower (s : String) : String := String.mk (s.data.map Char.toLower)

/-- Embeds RouterAgent._deserialize_message (agent.py lines 1103-1119). -/
def deserialize_message (d : SerializedMsg) : LCMessage :=
  let msg_type := pyLower d.ty
  if msg_type = "human" ∨ msg_type = "user" then .human d.content
  else if msg_type = "ai" ∨ msg_type = "assistant" then .ai d.content
  else if msg_type = "system" then .system d.content
  else .human d.content

/-- The three role kinds distinguished by the deserializer. -/
inductive RoleKind where
  | userRole
  | assistantRole
  | systemRole
  deriving Repr, DecidableEq

/-- Role kind of a (lower-cased) message type string, following the deserializer
branches: human/user, ai/assistant, system; other types have no role kind. -/
def roleKindOfType (ty : String) : Option RoleKind :=
  if ty = "human" ∨ ty = "user" then some .userRole
  else if ty = "ai" ∨ ty = "assistant" then some .assistantRole
  else if ty = "system" then some .systemRole
  else none

/-- C10: snapshot message round-trip.  A message whose (lower-cased) type is one of
human/user, ai/assistant, system deserializes, after serialization, to a message of
the same role kind with identical content; a serialized message of any other type
deserializes to a HumanMessage carrying the original content. -/
theorem message_snapshot_round_trip :
    (∀ (m : LCMessage) (rc : RoleKind),
        roleKindOfType (pyLower (serialize_message m).ty) = some rc →
        roleKindOfType (deserialize_message (serialize_message m)).msgType = some rc
          ∧ (deserialize_message (serialize_message m)).content = m.content)
    ∧ (∀ (d : SerializedMsg), roleKindOfType (pyLower d.ty) = none →
        deserialize_message d = .human d.content) := by
  constructor
  · intro m rc h
    simp only [serialize_message, deserialize_message, roleKindOfType] at *
    split_ifs at h ⊢ with h1 h2 h3 <;>
      simp_all [LCMessage.msgType, LCMessage.content, roleKindOfType]
  · intro d h
    simp only [deserialize_message, roleKindOfType] at *
    split_ifs at h ⊢ <;> simp_all

/-- Witness for C10 at concrete inputs: a serialized dict typed "USER" round-trips to a
user-role message, and an unknown type "tool" falls back to a HumanMessage. -/
theorem message_snapshot_round_trip_witness :
    (roleKindOfType (deserialize_message (serialize_message (.other "USER" "hi"))).msgType
        = some .userRole
      ∧ (deserialize_message (serialize_message (.other "USER" "hi"))).content
        = (LCMessage.other "USER" "hi").content)
    ∧ deserialize_message { ty := "tool", content := "x" } = .human "x" :=
  ⟨message_snapshot_round_trip.1 (.other "USER" "hi") .userRole (by decide),
   message_snapshot_round_trip.2 { ty := "tool", content := "x" } (by decide)⟩

-- ======================================================================
-- C3 theorem
-- ======================================================================

/-- C3: `calculate_credits_consumed t = t / 1000` exactly for every token count, and
the backend subtraction payload is the integer ceiling of the (clamped) fractional
credits, is strictly positive whenever the call is made, and the call is skipped
whenever that ceiling would be non-positive; for a turn cost derived from tokens the
payload equals `⌈t / 1000⌉`. -/
theorem credit_math_contract :
    (∀ t : Nat, calculate_credits_consumed t = (t : ℚ) / 1000)
    ∧ (∀ (key org : Option String) (c : ℚ) (n : Int),
        update_user_credits key org c = some n → n = ⌈max c 0⌉ ∧ 0 < n)
    ∧ (∀ (key org : Option String) (c : ℚ), ⌈max c 0⌉ ≤ 0 →
        update_user_credits key org c = none)
    ∧ (∀ (key org : Option String) (t : Nat) (n : Int),
        update_user_credits key org (calculate_credits_consumed t) = some n →
        n = ⌈(t : ℚ) / 1000⌉) := by
  have hpart2 : ∀ (key org : Option String) (c : ℚ) (n : Int),
      update_user_credits key org c = some n → n = ⌈max c 0⌉ ∧ 0 < n := by
    intro key org c n h
    simp only [update_user_credits] at h
    split_ifs at h with h1 h2 h3
    all_goals try exact Option.noConfusion h
    all_goals
      have hn : n = ⌈max c 0⌉ := (Option.some_inj.mp h).symm
      exact ⟨hn, by omega⟩
  refine ⟨fun t => rfl, hpart2, ?_, ?_⟩
  · intro key org c hceil
    simp only [update_user_credits]
    split_ifs
    all_goals try rfl
    all_goals exact absurd hceil (by assumption)
  · intro key org t n h
    obtain ⟨h1, _⟩ := hpart2 key org _ n h
    have hnn : (0 : ℚ) ≤ calculate_credits_consumed t := by
      unfold calculate_credits_consumed
      positivity
    rw [h1, max_eq_left hnn]
    rfl

/-- Witness for C3 at a concrete input: 1500 tokens cost 3/2 credits and the backend
payload rounds up to 2. -/
theorem credit_math_contract_witness :
    update_user_credits (some "internal-key") (some "org-1") (calculate_credits_consumed 1500)
        = some 2
    ∧ (2 : Int) = ⌈(1500 : ℚ) / 1000⌉ := by
  have hc : calculate_credits_consumed 1500 = 3 / 2 := by
    simp only [calculate_credits_consumed, tokens_per_credit]
    norm_num
  have hceil : (⌈((3 : ℚ) / 2) ⊔ 0⌉ : Int) = 2 := by
    rw [max_eq_left (by norm_num : (0 : ℚ) ≤ 3 / 2), Int.ceil_eq_iff] <;> norm_num
  have h : update_user_credits (some "internal-key") (some "org-1")
      (calculate_credits_consumed 1500) = some 2 := by
    simp only [update_user_credits, hc, hceil]
    decide
  exact ⟨h, credit_math_contract.2.2.2 (some "internal-key") (some "org-1") 1500 2 h⟩

-- ======================================================================
-- C9: ResponseWithTools.extract_first_json_object
-- ======================================================================

/-- Brace-depth scanner from ResponseWithTools.extract_first_json_object (agent.py
lines 70-99).  Arguments mirror the loop state: depth, in_string, escape, the
accumulated (reversed) candidate characters, and the remaining input.  Returns the
candidate slice from the first brace up to the character that closes depth 0, or
`none` when the input ends before the braces balance. -/
def walkBrace : Int → Bool → Bool → List Char → List Char → Option (List Char)
  | _, _, _, _, [] => none
  | depth, inString, escape, acc, c :: cs =>
    if escape then walkBrace depth inString false (c :: acc) cs
    else if c == '\\' then walkBrace depth inString true (c :: acc) cs
    else if c == '"' then walkBrace depth (!inString) false (c :: acc) cs
    else if inString then walkBrace depth inString false (c :: acc) cs
    else if c == '{' then walkBrace (depth + 1) inString false (c :: acc) cs
    else if c == '}' then
      if depth - 1 = 0 then some (c :: acc).reverse
      else walkBrace (depth - 1) inString false (c :: acc) cs
    else walkBrace depth inString false (c :: acc) cs

/-- Python `text.find("{")` followed by slicing: drop everything before the first
brace, returning `none` when there is no brace (agent.py lines 66-68). -/
def dropToBrace : List Char → Option (List Char)
  | [] => none
  | c :: cs => if c == '{' then some (c :: cs) else dropToBrace cs

/-- Embeds ResponseWithTools.extract_first_json_object (agent.py lines 50-99) over
character lists.  The `json.loads` validation of the candidate (stdlib, external to
the repository) is the `loads_ok` parameter: when the balanced candidate fails to
parse the function returns `none`, exactly as the source returns None from the
`except` branch. -/
def extract_first_json_object (loads_ok : List Char → Bool) (text : List Char) :
    Option (List Char) :=
  match dropToBrace text with
  | none => none
  | some rest =>
    match walkBrace 0 false false [] rest with
    | none => none
    | some cand => if loads_ok cand then some cand else none

/- JSON values, used to state what "the serialization of a syntactically balanced
JSON object" means.  Arrays and objects are spelled as mutual inductives so that all
recursion below is structural. -/
mutual
inductive Json where
  | jnull : Json
  | jbool : Bool → Json
  | jnum : Int → Json
  | jstr : String → Json
  | jarr : JsonArr → Json
  | jobj : JsonObj → Json

inductive JsonArr where
  | anil : JsonArr
  | acons : Json → JsonArr → JsonArr

inductive JsonObj where
  | onil : JsonObj
  | ocons : String → Json → JsonObj → JsonObj
end

/-- JSON string escaping for the two characters the scanner is sensitive to. -/
def escChar (c : Char) : List Char :=
  if c == '"' || c == '\\' then ['\\', c] else [c]

/-- Escape every character of a string body. -/
def escChars : List Char → List Char
  | [] => []
  | c :: cs => escChar c ++ escChars cs

/-- A JSON string literal: quote, escaped body, quote. -/
def strLit (s : String) : List Char := '"' :: (escChars s.data ++ ['"'])

/-- Decimal digit character (0-9); inputs are always reduced mod 10. -/
def digit_char (d : Nat) : Char :=
  if d = 0 then '0' else if d = 1 then '1' else if d = 2 then '2' else if d = 3 then '3'
  else if d = 4 then '4' else if d = 5 then '5' else if d = 6 then '6'
  else if d = 7 then '7' else if d = 8 then '8' else '9'

/-- Decimal digits of a natural number, fuel-structured so it reduces in the kernel. -/
def natCharsGo : Nat → Nat → List Char → List Char
  | 0, n, acc => digit_char (n % 10) :: acc
  | fuel + 1, n, acc =>
    if n < 10 then digit_char n :: acc
    else natCharsGo fuel (n / 10) (digit_char (n % 10) :: acc)

/-- Decimal representation of a natural number. -/
def natChars (n : Nat) : List Char := natCharsGo n n []

/-- Decimal representation of an integer. -/
def intChars (n : Int) : List Char :=
  if n < 0 then '-' :: natChars n.natAbs else natChars n.toNat

/- Serialization of JSON values (the canonical compact form, with quote and backslash
escapes), mutually with comma-separated array elements and object fields. -/
mutual
def serJson : Json → List Char
  | .jnull => "null".data
  | .jbool true => "true".data
  | .jbool false => "false".data
  | .jnum n => intChars n
  | .jstr s => strLit s
  | .jarr xs => '[' :: (serArr xs ++ [']'])
  | .jobj fs => '{' :: (serObj fs ++ ['}'])

def serArr : JsonArr → List Char
  | .anil => []
  | .acons x .anil => serJson x
  | .acons x (.acons y ys) => serJson x ++ ',' :: serArr (.acons y ys)

def serObj : JsonObj → List Char
  | .onil => []
  | .ocons k v .onil => strLit k ++ ':' :: serJson v
  | .ocons k v (.ocons k2 v2 fs) =>
    strLit k ++ ':' :: serJson v ++ ',' :: serObj (.ocons k2 v2 fs)
end

/-- A character the scanner treats as inert outside strings. -/
def neutralChar (c : Char) : Bool :=
  !(c == '\\' || c == '"' || c == '{' || c == '}')

/-- A character list the scanner passes over outside strings without changing its
depth or string state, accumulating the characters. -/
def Passes (cs : List Char) : Prop :=
  ∀ (d : Int) (a rest : List Char), 1 ≤ d →
    walkBrace d false false a (cs ++ rest) = walkBrace d false false (cs.reverse ++ a) rest

/-- A character list the scanner passes over while inside a string. -/
def StrPasses (cs : List Char) : Prop :=
  ∀ (d : Int) (a rest : List Char),
    walkBrace d true false a (cs ++ rest) = walkBrace d true false (cs.reverse ++ a) rest

theorem passes_nil : Passes [] := by
  intro d a rest _
  simp

theorem passes_append {xs ys : List Char} (hx : Passes xs) (hy : Passes ys) :
    Passes (xs ++ ys) := by
  intro d a rest hd
  rw [List.append_assoc, hx d a (ys ++ rest) hd, hy d (xs.reverse ++ a) rest hd,
    List.reverse_append, List.append_assoc]

theorem passes_cons {c : Char} {cs : List Char} (hc : neutralChar c = true)
    (hcs : Passes cs) : Passes (c :: cs) := by
  intro d a rest hd
  simp only [neutralChar, Bool.not_eq_true', Bool.or_eq_false_iff, beq_eq_false_iff_ne,
    ne_eq] at hc
  obtain ⟨⟨⟨h1, h2⟩, h3⟩, h4⟩ := hc
  have step : walkBrace d false false a ((c :: cs) ++ rest)
      = walkBrace d false false (c :: a) (cs ++ rest) := by
    simp only [List.cons_append, walkBrace, if_neg, beq_iff_eq, h1, h2, h3, h4]
    simp
  rw [step, hcs d (c :: a) rest hd]
  simp

theorem passes_of_neutral {cs : List Char} (h : ∀ c ∈ cs, neutralChar c = true) :
    Passes cs := by
  induction cs with
  | nil => exact passes_nil
  | cons c cs ih =>
    exact passes_cons (h c (by simp)) (ih fun x hx => h x (by simp [hx]))

theorem str_passes_nil : StrPasses [] := by
  intro d a rest
  simp

theorem str_passes_append {xs ys : List Char} (hx : StrPasses xs) (hy : StrPasses ys) :
    StrPasses (xs ++ ys) := by
  intro d a rest
  rw [List.append_assoc, hx d a (ys ++ rest), hy d (xs.reverse ++ a) rest,
    List.reverse_append, List.append_assoc]

theorem str_passes_escChar (c : Char) : StrPasses (escChar c) := by
  intro d a rest
  by_cases h : (c == '"' || c == '\\') = true
  · simp only [escChar, if_pos h]
    simp [walkBrace]
  · simp only [escChar, if_neg h]
    simp only [Bool.or_eq_true, not_or, Bool.not_eq_true] at h
    obtain ⟨h2, h1⟩ := h
    simp [walkBrace, h1, h2]

theorem str_passes_escChars (cs : List Char) : StrPasses (escChars cs) := by
  induction cs with
  | nil => exact str_passes_nil
  | cons c cs ih => exact str_passes_append (str_passes_escChar c) ih

theorem passes_strLit (s : String) : Passes (strLit s) := by
  intro d a rest hd
  have openq : walkBrace d false false a (strLit s ++ rest)
      = walkBrace d true false ('"' :: a) (escChars s.data ++ ('"' :: rest)) := by
    simp [strLit, walkBrace]
  rw [openq, str_passes_escChars s.data d ('"' :: a) ('"' :: rest)]
  have closeq : walkBrace d true false ((escChars s.data).reverse ++ '"' :: a) ('"' :: rest)
      = walkBrace d false false ('"' :: (escChars s.data).reverse ++ '"' :: a) rest := by
    simp [walkBrace]
  rw [closeq]
  simp [strLit]

theorem passes_braces {inner : List Char} (h : Passes inner) :
    Passes ('{' :: (inner ++ ['}'])) := by
  intro d a rest hd
  have openb : walkBrace d false false a (('{' :: (inner ++ ['}'])) ++ rest)
      = walkBrace (d + 1) false false ('{' :: a) (inner ++ ('}' :: rest)) := by
    simp [walkBrace]
  rw [openb, h (d + 1) ('{' :: a) ('}' :: rest) (by omega)]
  have closeb : walkBrace (d + 1) false false (inner.reverse ++ '{' :: a) ('}' :: rest)
      = walkBrace d false false ('}' :: inner.reverse ++ '{' :: a) rest := by
    have hne : d ≠ 0 := by omega
    simp [walkBrace, hne]
  rw [closeb]
  simp

theorem digit_char_neutral (d : Nat) : neutralChar (digit_char d) = true := by
  unfold digit_char
  split_ifs <;> decide

theorem natCharsGo_sound (fuel : Nat) :
    ∀ (n : Nat) (acc : List Char) (c : Char), c ∈ natCharsGo fuel n acc →
      (∃ d, c = digit_char d) ∨ c ∈ acc := by
  induction fuel with
  | zero =>
    intro n acc c hc
    simp only [natCharsGo, List.mem_cons] at hc
    rcases hc with h | h
    · exact Or.inl ⟨n % 10, h⟩
    · exact Or.inr h
  | succ fuel ih =>
    intro n acc c hc
    simp only [natCharsGo] at hc
    split_ifs at hc
    · simp only [List.mem_cons] at hc
      rcases hc with h | h
      · exact Or.inl ⟨n, h⟩
      · exact Or.inr h
    · rcases ih (n / 10) (digit_char (n % 10) :: acc) c hc with h | h
      · exact Or.inl h
      · simp only [List.mem_cons] at h
        rcases h with h | h
        · exact Or.inl ⟨n % 10, h⟩
        · exact Or.inr h

theorem natChars_neutral (n : Nat) : ∀ c ∈ natChars n, neutralChar c = true := by
  intro c hc
  rcases natCharsGo_sound n n [] c hc with ⟨d, hd⟩ | h
  · exact hd ▸ digit_char_neutral d
  · simp at h

theorem intChars_neutral (n : Int) : ∀ c ∈ intChars n, neutralChar c = true := by
  intro c hc
  unfold intChars at hc
  split_ifs at hc
  · simp only [List.mem_cons] at hc
    rcases hc with h | h
    · subst h; decide
    · exact natChars_neutral _ c h
  · exact natChars_neutral _ c hc

mutual
theorem serJson_passes : (v : Json) → Passes (serJson v)
  | .jnull => passes_of_neutral (by decide)
  | .jbool true => passes_of_neutral (by decide)
  | .jbool false => passes_of_neutral (by decide)
  | .jnum n => passes_of_neutral (intChars_neutral n)
  | .jstr s => passes_strLit s
  | .jarr xs =>
    passes_cons (by decide)
      (passes_append (serArr_passes xs) (passes_of_neutral (by decide)))
  | .jobj fs => passes_braces (serObj_passes fs)

theorem serArr_passes : (xs : JsonArr) → Passes (serArr xs)
  | .anil => passes_nil
  | .acons x .anil => serJson_passes x
  | .acons x (.acons y ys) =>
    passes_append (serJson_passes x)
      (passes_cons (by decide) (serArr_passes (.acons y ys)))

theorem serObj_passes : (fs : JsonObj) → Passes (serObj fs)
  | .onil => passes_nil
  | .ocons k v .onil =>
    passes_append (passes_strLit k) (passes_cons (by decide) (serJson_passes v))
  | .ocons k v (.ocons k2 v2 fs) =>
    passes_append
      (passes_append (passes_strLit k) (passes_cons (by decide) (serJson_passes v)))
      (passes_cons (by decide) (serObj_passes (.ocons k2 v2 fs)))
end

/-- Scanning the serialization of a JSON object from depth 0 stops exactly at the
closing brace of the object and returns the whole serialization. -/
theorem walkBrace_on_object (fs : JsonObj) (S : List Char) :
    walkBrace 0 false false [] (serJson (.jobj fs) ++ S) = some (serJson (.jobj fs)) := by
  show walkBrace 0 false false [] (('{' :: (serObj fs ++ ['}'])) ++ S)
      = some ('{' :: (serObj fs ++ ['}']))
  have openb : walkBrace 0 false false [] (('{' :: (serObj fs ++ ['}'])) ++ S)
      = walkBrace 1 false false ['{'] (serObj fs ++ ('}' :: S)) := by
    simp [walkBrace]
  rw [openb, serObj_passes fs 1 ['{'] ('}' :: S) (by omega)]
  simp [walkBrace]

theorem dropToBrace_skips (P rest : List Char) (hP : ∀ c ∈ P, c ≠ '{') :
    dropToBrace (P ++ '{' :: rest) = some ('{' :: rest) := by
  induction P with
  | nil => simp [dropToBrace]
  | cons c cs ih =>
    have hc : c ≠ '{' := hP c (by simp)
    simp only [List.cons_append, dropToBrace, beq_iff_eq, if_neg hc]
    exact ih fun x hx => hP x (by simp [hx])

theorem dropToBrace_none (t : List Char) (h : ∀ c ∈ t, c ≠ '{') :
    dropToBrace t = none := by
  induction t with
  | nil => rfl
  | cons c cs ih =>
    have hc : c ≠ '{' := h c (by simp)
    simp only [dropToBrace, beq_iff_eq, if_neg hc]
    exact ih fun x hx => h x (by simp [hx])

/-- C9: for a reply of the form prose-without-braces ++ serialized JSON object ++
arbitrary trailing text, extract_first_json_object returns exactly the serialized
object (skipping braces inside string literals and escaped characters by
construction of the scanner) provided the candidate passes the external JSON parse;
it returns none when the input contains no opening brace, and none when the first
balanced candidate fails the external JSON parse. -/
theorem extract_first_json_object_spec :
    (∀ (P S : List Char) (fs : JsonObj) (loads_ok : List Char → Bool),
        (∀ c ∈ P, c ≠ '{') → loads_ok (serJson (.jobj fs)) = true →
        extract_first_json_object loads_ok (P ++ serJson (.jobj fs) ++ S)
          = some (serJson (.jobj fs)))
    ∧ (∀ (t : List Char) (loads_ok : List Char → Bool),
        (∀ c ∈ t, c ≠ '{') → extract_first_json_object loads_ok t = none)
    ∧ (∀ (P S : List Char) (fs : JsonObj) (loads_ok : List Char → Bool),
        (∀ c ∈ P, c ≠ '{') → loads_ok (serJson (.jobj fs)) = false →
        extract_first_json_object loads_ok (P ++ serJson (.jobj fs) ++ S) = none) := by
  have hmain : ∀ (P S : List Char) (fs : JsonObj) (loads_ok : List Char → Bool),
      (∀ c ∈ P, c ≠ '{') →
      extract_first_json_object loads_ok (P ++ serJson (.jobj fs) ++ S)
        = (if loads_ok (serJson (.jobj fs)) then some (serJson (.jobj fs)) else none) := by
    intro P S fs loads_ok hP
    have hshape : P ++ serJson (.jobj fs) ++ S
        = P ++ '{' :: ((serObj fs ++ ['}']) ++ S) := by
      show P ++ ('{' :: (serObj fs ++ ['}'])) ++ S = _
      simp
    have hdrop : dropToBrace (P ++ serJson (.jobj fs) ++ S)
        = some ('{' :: ((serObj fs ++ ['}']) ++ S)) := by
      rw [hshape]
      exact dropToBrace_skips P _ hP
    have hwalk : walkBrace 0 false false [] ('{' :: ((serObj fs ++ ['}']) ++ S))
        = some (serJson (.jobj fs)) := by
      have : serJson (.jobj fs) ++ S = '{' :: ((serObj fs ++ ['}']) ++ S) := by
        show ('{' :: (serObj fs ++ ['}'])) ++ S = _
        simp
      rw [← this]
      exact walkBrace_on_object fs S
    unfold extract_first_json_object
    rw [hdrop]
    dsimp only
    rw [hwalk]
  refine ⟨?_, ?_, ?_⟩
  · intro P S fs loads_ok hP hl
    rw [hmain P S fs loads_ok hP, if_pos hl]
  · intro t loads_ok ht
    unfold extract_first_json_object
    rw [dropToBrace_none t ht]
  · intro P S fs loads_ok hP hl
    rw [hmain P S fs loads_ok hP, if_neg (by simp [hl])]

/-- Witness for C9 at concrete inputs: prose followed by the serialized object
followed by trailing text extracts exactly the object, and brace-free text yields
none. -/
theorem extract_first_json_object_spec_witness :
    extract_first_json_object (fun _ => true)
        ("Sure: ".data ++ serJson (.jobj (.ocons "a" (.jnum 12) .onil)) ++ " done".data)
      = some (serJson (.jobj (.ocons "a" (.jnum 12) .onil)))
    ∧ extract_first_json_object (fun _ => true) "no opening brace".data = none :=
  ⟨extract_first_json_object_spec.1 "Sure: ".data " done".data
      (.ocons "a" (.jnum 12) .onil) (fun _ => true) (by decide) rfl,
   extract_first_json_object_spec.2.1 "no opening brace".data (fun _ => true) (by decide)⟩

-- ======================================================================
-- Tool registry, loop detector and validation dispatch (C2, C5, C6)
-- ======================================================================

/-- Tool-name groups declared at the top of _single_tool_call (agent.py 2453-2499),
with the names resolved through the constants imported from the tool modules. -/
def codebase_tools_with_question : List String :=
  ["query_code_base", "query_definition_names", "deep_search_codebase", "rag_code"]

def law_tools_with_question : List String := ["query_law", "deep_search_law"]

def org_tools_single_arg : List String :=
  ["get_policies", "get_documentation", "get_employee_information"]

def project_content_tools : List String :=
  ["fetch_documentation_page", "fetch_policy_content", "search_documentation",
   "search_policies"]

def document_detail_tools : List String := ["read_document"]

def project_task_read_tools : List String := ["read_project_tasks"]

def project_task_writer_tools : List String := ["create_project_task"]

def project_evaluation_tools : List String := ["evaluate_project"]

def document_evaluation_tools : List String := ["evaluate_document"]

def template_search_tools : List String := ["read_documentation_template"]

def template_edit_tools : List String := ["edit_documentation_page"]

def template_create_tools : List String := ["create_documentation_page"]

def template_delete_tools : List String := ["delete_documentation_page"]

def template_reassign_tools : List String := ["reassign_documentation_page"]

def auditor_list_tools : List String := ["list_auditors"]

def auditor_view_tools : List String := ["view_auditor"]

def auditor_create_tools : List String := ["create_auditor"]

def auditor_edit_tools : List String := ["edit_auditor"]

def agent_list_tools : List String := ["list_agents"]

def agent_view_tools : List String := ["view_agent"]

def agent_create_tools : List String := ["create_agent"]

def agent_edit_tools : List String := ["edit_agent"]

def agent_delete_tools : List String := ["delete_agent"]

def context_update_tools : List String := ["update_context"]

def onboarding_tools : List String := ["configure_scf"]

def scf_controls_tools : List String :=
  ["select_scf_controls", "scf_set_min_weight", "scf_reset_filters", "scf_all_done"]

def scf_task_tools : List String := ["scf_tasks"]

def scf_coverage_tools : List String := ["scf_coverage_overlap", "scf_risks_threats_coverage"]

def scf_catalog_tools : List String := ["scf_list_risks", "scf_list_threats"]

def scf_timeline_tools : List String :=
  ["scf_set_timeline_windows", "scf_set_timeline_order", "scf_reset_timeline"]

def scf_config_tools : List String :=
  scf_controls_tools ++ scf_task_tools ++ scf_coverage_tools ++ scf_catalog_tools
    ++ scf_timeline_tools

/-- Tools subject to trace recording and loop detection (agent.py line 2541):
context-update and SCF-configuration tools. -/
def tracked_tools : List String := context_update_tools ++ scf_config_tools

/-- Entry-point visibility of tools (agent.py 2501-2526).  The source wraps each
union in sorted(list(...)), which only fixes the display order of the names in the
error message; membership is unchanged and is all the embedded proofs rely on. -/
def supported_tools (entry_point : String) : List String :=
  if entry_point = "onboarding" then
    context_update_tools ++ onboarding_tools
  else if entry_point = "project_view" then
    codebase_tools_with_question ++ law_tools_with_question ++ org_tools_single_arg ++
    project_content_tools ++ document_detail_tools ++ template_search_tools ++
    template_edit_tools ++ template_create_tools ++ template_delete_tools ++
    template_reassign_tools ++ auditor_list_tools ++ auditor_view_tools ++
    auditor_create_tools ++ auditor_edit_tools ++ agent_list_tools ++ agent_view_tools ++
    agent_create_tools ++ agent_edit_tools ++ agent_delete_tools ++
    project_task_read_tools ++ project_task_writer_tools ++ project_evaluation_tools ++
    document_evaluation_tools ++ context_update_tools
  else if entry_point = "scf_config" then
    scf_config_tools ++ org_tools_single_arg ++ context_update_tools
  else
    org_tools_single_arg ++ context_update_tools

/-- Loop counter computed before dispatch (agent.py 2543-2557): take the last 5 trace
entries, keep those whose tool equals the current name, and count the trailing run
with identical arguments; the current call adds one. -/
def loop_count_of (name : String) (args : List String) (existing : List TraceEntry) : Nat :=
  if name ∈ tracked_tools ∧ existing ≠ [] then
    let recent := (lastN 5 existing).filter (fun t => t.tool == name)
    if recent.isEmpty then 1
    else (recent.reverse.takeWhile (fun t => t.args == args)).length + 1
  else 1

/-- Loop flag (agent.py line 2558): a loop is flagged when the counter reaches 3. -/
def loop_detected_of (name : String) (args : List String) (existing : List TraceEntry) :
    Bool :=
  if name ∈ tracked_tools ∧ existing ≠ [] then
    let recent := (lastN 5 existing).filter (fun t => t.tool == name)
    if recent.isEmpty then false
    else decide (3 ≤ (recent.reverse.takeWhile (fun t => t.args == args)).length + 1)
  else false

/-- Text of the synthetic loop warning (agent.py 2585-2591). -/
def loop_warning_text (name : String) (loop_count : Nat) : String :=
  "[TOOL_STATUS][LOOP_WARNING] Tool \x27" ++ name ++ "\x27 has been called "
    ++ toString loop_count
    ++ " times in a row with the same arguments. You are likely stuck in a loop. "
    ++ "Stop calling this tool; instead either respond directly to the user or, "
    ++ "if you are in SCF configuration, call \x27scf_all_done\x27 to pause this "
    ++ "SCF chat turn."

/-- The synthetic internal loop-warning AIMessage (agent.py 2592-2600). -/
def loopWarningMsg (name : String) (loop_count : Nat) : AMsg :=
  { content := loop_warning_text name loop_count
    internal_tool_status := true
    loop_warning := true
    loop_count := loop_count }

/-- Embeds _attach_traces_and_loop_hint (agent.py 2560-2604): for tracked tools,
append the call-trace entry (capped at 100) to the update and, when a loop was
detected, append the synthetic warning message. -/
def attach_traces_and_loop_hint (name : Option String) (args : List String)
    (existing_traces : List TraceEntry) (update : Delta) (status : String)
    (error_text : Option String) : Delta :=
  match name with
  | none => update
  | some n =>
    if n ∈ tracked_tools then
      let entry : TraceEntry := { tool := n, args := args, status := status, error := error_text }
      let new_traces := existing_traces ++ [entry]
      let new_traces := if 100 < new_traces.length then lastN 100 new_traces else new_traces
      let upd := { update with tool_call_traces := some new_traces }
      if loop_detected_of n args existing_traces then
        { upd with
          messages := some ((upd.messages.getD [])
            ++ [loopWarningMsg n (loop_count_of n args existing_traces)]) }
      else upd
    else update

/-- Embeds the error helper inside _single_tool_call (agent.py 2606-2624): a
validation error appends a machine-readable message, clears the tool flags, sets
tool_should_loopback to False and marks tool_error. -/
def tool_error_update (name : Option String) (args : List String)
    (existing_traces : List TraceEntry) (msg : String) : Delta :=
  attach_traces_and_loop_hint name args existing_traces
    { messages := some [{ content := "tool_validation_error: " ++ msg }]
      has_tool_call := some false
      requested_tool := some none
      tool_should_loopback := some false
      tool_error := some true }
    "error" (some msg)

/-- Name normalization (agent.py 2202-2207): aliases the LLM sometimes emits. -/
def tool_name_mapping (n : String) : String :=
  if n = "update_info" ∨ n = "update_context_info" then "update_context" else n

/-- Python ", ".join. -/
def joinComma : List String → String
  | [] => ""
  | [s] => s
  | s :: t :: rest => s ++ ", " ++ joinComma (t :: rest)

/-- Result of the dispatch head of _single_tool_call: either the function returned a
validation-error delta, or control reached the per-tool handler for a supported name. -/
inductive DispatchResult where
  | errored (d : Delta)
  | toHandler (name : String) (args : List String)
  deriving Repr, DecidableEq

/-- Embeds the dispatch head of _single_tool_call (agent.py 2193-2207, 2501-2526,
2626-2631): normalize requested_tool into name and args, apply the name mapping,
then reject a missing name or a name that is not visible for the current entry
point. -/
def single_tool_dispatch (state : AgentStateM) : DispatchResult :=
  let nameArgs : Option String × List String :=
    match state.requested_tool with
    | some (n :: rest) => (some n, rest)
    | some [] => (none, [])
    | none => (none, [])
  let args := nameArgs.2
  let name := nameArgs.1.map tool_name_mapping
  let supported := supported_tools state.entry_point
  match name with
  | none =>
    .errored (tool_error_update none args state.tool_call_traces
      "no tool name provided. Use: --tool_call-- then a line like: tool_name, arg1, arg2 ...")
  | some n =>
    if n = "" then
      .errored (tool_error_update (some n) args state.tool_call_traces
        "no tool name provided. Use: --tool_call-- then a line like: tool_name, arg1, arg2 ...")
    else if n ∉ supported then
      .errored (tool_error_update (some n) args state.tool_call_traces
        ("unknown tool \x27" ++ n ++ "\x27. Supported tools: " ++ joinComma supported))
    else
      .toHandler n args

-- ======================================================================
-- C5 theorem: unknown/invisible tool names are validation errors
-- ======================================================================

/-- C5: a requested tool whose (normalized) name is not visible for the current entry
point is dispatched to the validation-error path, and every validation-error delta
sets tool_should_loopback to false and carries, as its first message, a message whose
content starts with "tool_validation_error: ". -/
theorem tool_validation_error_contract :
    (∀ (s : AgentStateM) (n : String) (args : List String),
        s.requested_tool = some (n :: args) →
        tool_name_mapping n ≠ "" →
        tool_name_mapping n ∉ supported_tools s.entry_point →
        single_tool_dispatch s
          = .errored (tool_error_update (some (tool_name_mapping n)) args s.tool_call_traces
              ("unknown tool \x27" ++ tool_name_mapping n ++ "\x27. Supported tools: "
                ++ joinComma (supported_tools s.entry_point))))
    ∧ (∀ (name : Option String) (args : List String) (traces : List TraceEntry)
          (msg : String),
        (tool_error_update name args traces msg).tool_should_loopback = some false
        ∧ ∃ rest, (tool_error_update name args traces msg).messages
            = some ({ content := "tool_validation_error: " ++ msg } :: rest)) := by
  constructor
  · intro s n args hreq hne hnsupp
    simp [single_tool_dispatch, hreq, hne, hnsupp]
  · intro name args traces msg
    cases name with
    | none => exact ⟨rfl, [], rfl⟩
    | some n =>
      by_cases htr : n ∈ tracked_tools
      · by_cases hld : loop_detected_of n args traces = true
        · refine ⟨?_, [loopWarningMsg n (loop_count_of n args traces)], ?_⟩ <;>
            simp [tool_error_update, attach_traces_and_loop_hint, htr, hld]
        · refine ⟨?_, [], ?_⟩ <;>
            simp [tool_error_update, attach_traces_and_loop_hint, htr, hld]
      · refine ⟨?_, [], ?_⟩ <;>
          simp [tool_error_update, attach_traces_and_loop_hint, htr]

/-- Witness for C5 at a concrete input: an unknown tool name in a default
(project_view) session is rejected with a loopback-ending validation error. -/
theorem tool_validation_error_contract_witness :
    single_tool_dispatch ({ requested_tool := some ["bogus_tool"] } : AgentStateM)
      = .errored (tool_error_update (some "bogus_tool") [] []
          ("unknown tool \x27bogus_tool\x27. Supported tools: "
            ++ joinComma (supported_tools "project_view")))
    ∧ ((tool_error_update (some "bogus_tool") [] [] "boom").tool_should_loopback
          = some false
      ∧ ∃ rest, (tool_error_update (some "bogus_tool") [] [] "boom").messages
          = some ({ content := "tool_validation_error: boom" } :: rest)) := by
  constructor
  · have h := tool_validation_error_contract.1
      ({ requested_tool := some ["bogus_tool"] } : AgentStateM) "bogus_tool" [] rfl
      (by decide) (by decide)
    have e : tool_name_mapping "bogus_tool" = "bogus_tool" := by decide
    rw [e] at h
    exact h
  · exact tool_validation_error_contract.2 (some "bogus_tool") [] [] "boom"

-- ======================================================================
-- C2: loop detector behaviour
-- ======================================================================

/-- Trace evolution under repeated identical tracked calls: each call's
_attach_traces_and_loop_hint returns the new trace list, which the graph installs for
the next call (the per-tool update is irrelevant to the traces). -/
def repeatCallTraces (name : String) (args : List String) : Nat → List TraceEntry
  | 0 => []
  | k + 1 =>
    let prev := repeatCallTraces name args k
    ((attach_traces_and_loop_hint (some name) args prev {} "success" none).tool_call_traces).getD
      prev

theorem takeWhile_replicate_of_pos {α : Type} (p : α → Bool) (a : α) (m : Nat)
    (h : p a = true) : (List.replicate m a).takeWhile p = List.replicate m a := by
  induction m with
  | zero => rfl
  | succ m ih => simp [List.replicate_succ, List.takeWhile_cons, h, ih]

/-- The trace entry appended for one tracked call. -/
def callEntry (name : String) (args : List String) : TraceEntry :=
  { tool := name, args := args, status := "success", error := none }

theorem attach_traces_field (n : String) (htr : n ∈ tracked_tools) (args : List String)
    (existing : List TraceEntry) (update : Delta) (status : String) (err : Option String) :
    (attach_traces_and_loop_hint (some n) args existing update status err).tool_call_traces
      = some (if 100 < (existing ++ [(⟨n, args, status, err⟩ : TraceEntry)]).length
          then lastN 100 (existing ++ [(⟨n, args, status, err⟩ : TraceEntry)])
          else existing ++ [(⟨n, args, status, err⟩ : TraceEntry)]) := by
  simp only [attach_traces_and_loop_hint, if_pos htr]
  split_ifs <;> rfl

theorem repeatCallTraces_eq (name : String) (args : List String)
    (htr : name ∈ tracked_tools) (k : Nat) :
    repeatCallTraces name args k = List.replicate (min k 100) (callEntry name args) := by
  induction k with
  | zero => simp [repeatCallTraces]
  | succ k ih =>
    simp only [repeatCallTraces, ih,
      attach_traces_field name htr args _ {} "success" none, Option.getD_some]
    rw [show (⟨name, args, "success", none⟩ : TraceEntry) = callEntry name args from rfl,
      ← List.replicate_succ']
    rcases Nat.lt_or_ge k 100 with hk | hk
    · have h1 : min k 100 = k := by omega
      have h2 : min (k + 1) 100 = k + 1 := by omega
      rw [h1, h2, if_neg (by simp; omega)]
    · have h1 : min k 100 = 100 := by omega
      have h2 : min (k + 1) 100 = 100 := by omega
      rw [h1, h2, if_pos (by simp)]
      simp [lastN, List.drop_replicate]

theorem replicate_callEntry_ne_nil (name : String) (args : List String) (m : Nat)
    (hm : 1 ≤ m) : List.replicate m (callEntry name args) ≠ [] := by
  cases m with
  | zero => omega
  | succ t => simp [List.replicate_succ]

theorem lastN_replicate (m n : Nat) (e : TraceEntry) :
    lastN n (List.replicate m e) = List.replicate (min m n) e := by
  simp only [lastN, List.length_replicate, List.drop_replicate]
  congr 1
  omega

theorem replicate_callEntry_not_isEmpty (name : String) (args : List String) (m : Nat)
    (hm : 1 ≤ m) : (List.replicate m (callEntry name args)).isEmpty = false := by
  cases m with
  | zero => omega
  | succ t => simp [List.replicate_succ]

theorem loop_count_of_replicate (name : String) (args : List String)
    (htr : name ∈ tracked_tools) (m : Nat) (hm : 1 ≤ m) :
    loop_count_of name args (List.replicate m (callEntry name args)) = min m 5 + 1 := by
  have hne := replicate_callEntry_ne_nil name args m hm
  have hfil : (List.replicate (min m 5) (callEntry name args)).filter
      (fun t => t.tool == name) = List.replicate (min m 5) (callEntry name args) :=
    List.filter_replicate_of_pos (by simp [callEntry])
  have htw : (List.replicate (min m 5) (callEntry name args)).takeWhile
      (fun t => t.args == args) = List.replicate (min m 5) (callEntry name args) :=
    takeWhile_replicate_of_pos _ _ (min m 5) (by simp [callEntry])
  have hemp := replicate_callEntry_not_isEmpty name args (min m 5) (by omega)
  simp [loop_count_of, htr, hne, lastN_replicate, hfil, List.reverse_replicate, htw, hemp]

theorem loop_detected_of_replicate (name : String) (args : List String)
    (htr : name ∈ tracked_tools) (m : Nat) (hm : 1 ≤ m) :
    loop_detected_of name args (List.replicate m (callEntry name args))
      = decide (2 ≤ m) := by
  have hne := replicate_callEntry_ne_nil name args m hm
  have hfil : (List.replicate (min m 5) (callEntry name args)).filter
      (fun t => t.tool == name) = List.replicate (min m 5) (callEntry name args) :=
    List.filter_replicate_of_pos (by simp [callEntry])
  have htw : (List.replicate (min m 5) (callEntry name args)).takeWhile
      (fun t => t.args == args) = List.replicate (min m 5) (callEntry name args) :=
    takeWhile_replicate_of_pos _ _ (min m 5) (by simp [callEntry])
  have hemp := replicate_callEntry_not_isEmpty name args (min m 5) (by omega)
  have harith : (3 ≤ min m 5 + 1) ↔ (2 ≤ m) := by omega
  simp [loop_detected_of, htr, hne, lastN_replicate, hfil, List.reverse_replicate, htw,
    hemp, harith]

/-- C2 (amended): for a tracked tool called repeatedly with identical arguments from a
fresh trace, the synthetic loop warning is appended on the i-th call exactly when
3 ≤ i (so on the 3rd call and not before, and again on the 4th); the counter shown in
the warning is the trailing same-name same-args run of the last-5 window plus one. -/
theorem loop_warning_on_third_identical_call :
    ∀ (name : String), name ∈ tracked_tools →
    ∀ (args : List String) (update : Delta) (status : String) (err : Option String)
      (i : Nat), 1 ≤ i →
      (3 ≤ i →
        (attach_traces_and_loop_hint (some name) args (repeatCallTraces name args (i - 1))
            update status err).messages
          = some ((update.messages.getD [])
              ++ [loopWarningMsg name (min (i - 1) 5 + 1)]))
      ∧ (i < 3 →
        (attach_traces_and_loop_hint (some name) args (repeatCallTraces name args (i - 1))
            update status err).messages = update.messages) := by
  intro name htr args update status err i hi
  rw [repeatCallTraces_eq name args htr (i - 1)]
  constructor
  · intro h3
    have hdet : loop_detected_of name args
        (List.replicate (min (i - 1) 100) (callEntry name args)) = true := by
      rw [loop_detected_of_replicate name args htr _ (by omega)]
      simp only [decide_eq_true_eq]
      omega
    have hcnt : loop_count_of name args
        (List.replicate (min (i - 1) 100) (callEntry name args)) = min (i - 1) 5 + 1 := by
      rw [loop_count_of_replicate name args htr _ (by omega)]
      omega
    simp [attach_traces_and_loop_hint, htr, hdet, hcnt]
  · intro h3
    have hdet : loop_detected_of name args
        (List.replicate (min (i - 1) 100) (callEntry name args)) = false := by
      have hcase : i = 1 ∨ i = 2 := by omega
      rcases hcase with h | h <;> subst h
      · simp [loop_detected_of]
      · rw [loop_detected_of_replicate name args htr _ (by norm_num)]
        simp
    simp [attach_traces_and_loop_hint, htr, hdet]

/-- Counting rule exactly as the claim words it: over the trailing window (last 5) of
the tool-call trace restricted to tracked tool names, count the consecutive trailing
entries with identical (tool_name, args); the current call adds one. -/
def claimed_loop_count (name : String) (args : List String)
    (existing : List TraceEntry) : Nat :=
  (((lastN 5 existing).filter (fun t => tracked_tools.contains t.tool)).reverse.takeWhile
      (fun t => t.tool == name && t.args == args)).length + 1

/-- Trace after the tracked calls update_context("a"), scf_all_done(), built through
the embedded attach helper itself. -/
def loop_ce_trace1 : List TraceEntry :=
  ((attach_traces_and_loop_hint (some "update_context") ["a"] [] {} "success"
      none).tool_call_traces).getD []

def loop_ce_trace2 : List TraceEntry :=
  ((attach_traces_and_loop_hint (some "scf_all_done") [] loop_ce_trace1 {} "success"
      none).tool_call_traces).getD []

def loop_ce_trace3 : List TraceEntry :=
  ((attach_traces_and_loop_hint (some "update_context") ["a"] loop_ce_trace2 {} "success"
      none).tool_call_traces).getD []

set_option maxRecDepth 4000 in
/-- Counterexample for C2 as stated: after the tracked calls update_context("a"),
scf_all_done(), update_context("a"), a further update_context("a") call is only the
2nd consecutive identical invocation — the count taken over the tracked-restricted
trailing window, as the claim words it, is 2 and has not reached 3 — yet the code
appends a loop warning (its own counter, which skips entries of other tools inside
the window instead of letting them break the run, reaches 3). -/
theorem loop_warning_window_counterexample :
    claimed_loop_count "update_context" ["a"] loop_ce_trace3 = 2
    ∧ (attach_traces_and_loop_hint (some "update_context") ["a"] loop_ce_trace3 {}
        "success" none).messages
      = some [loopWarningMsg "update_context" 3]
    ∧ loop_ce_trace3
      = [⟨"update_context", ["a"], "success", none⟩,
         ⟨"scf_all_done", [], "success", none⟩,
         ⟨"update_context", ["a"], "success", none⟩] := by decide

/-- Witness for C2 (amended) at concrete inputs: the 3rd identical consecutive
update_context call appends the warning, the 2nd does not. -/
theorem loop_warning_on_third_identical_call_witness :
    (attach_traces_and_loop_hint (some "update_context") ["a"]
        (repeatCallTraces "update_context" ["a"] 2) {} "success" none).messages
      = some [loopWarningMsg "update_context" (min 2 5 + 1)]
    ∧ (attach_traces_and_loop_hint (some "update_context") ["a"]
        (repeatCallTraces "update_context" ["a"] 1) {} "success" none).messages
      = none := by
  constructor
  · have h := (loop_warning_on_third_identical_call "update_context" (by decide) ["a"]
      {} "success" none 3 (by omega)).1 (by omega)
    simpa using h
  · have h := (loop_warning_on_third_identical_call "update_context" (by decide) ["a"]
      {} "success" none 2 (by omega)).2 (by omega)
    simpa using h

-- ======================================================================
-- C6: the tool_call node clears tool flags after a batch
-- ======================================================================

/-- Trace-list cap used by _merge_states (agent.py 2130-2131). -/
def capTraces (l : List TraceEntry) : List TraceEntry :=
  if 100 < l.length then lastN 100 l else l

/-- The in-batch merge helper _merge_states (agent.py 2119-2135) applied to a working
state and a single-tool delta: message lists and trace lists are extended (traces
capped at 100), every other key present in the delta wins. -/
def merge_states_into_state (base : AgentStateM) (delta : Delta) : AgentStateM :=
  { base with
    messages := base.messages ++ delta.messages.getD []
    tool_call_traces := match delta.tool_call_traces with
      | none => base.tool_call_traces
      | some ts => capTraces (base.tool_call_traces ++ ts)
    has_tool_call := delta.has_tool_call.getD base.has_tool_call
    requested_tool := match delta.requested_tool with
      | some v => v
      | none => base.requested_tool
    requested_tools := match delta.requested_tools with
      | some v => v
      | none => base.requested_tools
    has_workflow := delta.has_workflow.getD base.has_workflow
    requested_workflow := match delta.requested_workflow with
      | some v => v
      | none => base.requested_workflow
    tool_should_loopback := delta.tool_should_loopback.getD base.tool_should_loopback
    tool_error := delta.tool_error.getD base.tool_error
    tokens_used := delta.tokens_used.getD base.tokens_used }

/-- The same _merge_states helper applied to the aggregated delta and a single-tool
delta (both are partial dicts): keys absent from the incoming delta keep the base
value, message/trace lists are extended. -/
def merge_states_deltas (base delta : Delta) : Delta :=
  { messages := match delta.messages with
      | none => base.messages
      | some ms => some (base.messages.getD [] ++ ms)
    tool_call_traces := match delta.tool_call_traces with
      | none => base.tool_call_traces
      | some ts => some (capTraces (base.tool_call_traces.getD [] ++ ts))
    has_tool_call := match delta.has_tool_call with
      | some v => some v
      | none => base.has_tool_call
    requested_tool := match delta.requested_tool with
      | some v => some v
      | none => base.requested_tool
    requested_tools := match delta.requested_tools with
      | some v => some v
      | none => base.requested_tools
    has_workflow := match delta.has_workflow with
      | some v => some v
      | none => base.has_workflow
    requested_workflow := match delta.requested_workflow with
      | some v => some v
      | none => base.requested_workflow
    tool_should_loopback := match delta.tool_should_loopback with
      | some v => some v
      | none => base.tool_should_loopback
    tool_error := match delta.tool_error with
      | some v => some v
      | none => base.tool_error
    tokens_used := match delta.tokens_used with
      | some v => some v
      | none => base.tokens_used }

/-- The sequential multi-tool loop of the tool_call node (agent.py 2140-2169),
parameterized by the single-tool call exactly as the source closure calls
_single_tool_call: thread the working state, aggregate the updates, stop early on a
validation error or after the terminal-by-design configure_scf. -/
def tool_call_batch_go (single : AgentStateM → Delta) :
    List (List String) → AgentStateM → Delta → Delta
  | [], _, agg => agg
  | cmd :: rest, ws, agg =>
    if cmd.isEmpty then tool_call_batch_go single rest ws agg
    else
      let cmd_name := cmd.head?
      let ws1 := { ws with requested_tool := some cmd, requested_tools := none }
      let u := single ws1
      let ws2 := merge_states_into_state ws1 u
      let agg2 := merge_states_deltas agg u
      if u.tool_error = some true then agg2
      else if cmd_name = some "configure_scf" then agg2
      else tool_call_batch_go single rest ws2 agg2

/-- Embeds the tool_call node (agent.py 2087-2178), parameterized by the single-tool
call: normalize the requested batch, fall back to single-tool behaviour for an empty
or singleton batch, otherwise run the batch loop and clear the tool flags on the
aggregated delta. -/
def tool_call_node (single : AgentStateM → Delta) (state : AgentStateM) : Delta :=
  let raw_batch := state.requested_tools.getD []
  let normalized_batch := raw_batch.filter (fun item => !item.isEmpty)
  match normalized_batch with
  | [] => single state
  | [cmd] => single { state with requested_tool := some cmd, requested_tools := none }
  | cmd :: rest =>
    let agg := tool_call_batch_go single (cmd :: rest) state {}
    let agg := if agg.has_tool_call = none then { agg with has_tool_call := some false }
      else agg
    let agg := if agg.requested_tool = none then { agg with requested_tool := some none }
      else agg
    { agg with requested_tools := some none }

/-- Common shape of every delta _single_tool_call returns: the tool flags are cleared
and no requested_tools key is emitted (checked against every return site of
_single_tool_call, agent.py 2606-5110). -/
def SingleDeltaShape (single : AgentStateM → Delta) : Prop :=
  ∀ t : AgentStateM, (single t).has_tool_call = some false
    ∧ (single t).requested_tool = some none
    ∧ (single t).requested_tools = none

/-- Model of _single_tool_call for concrete evaluation: the dispatch validations are
the embedded single_tool_dispatch; the per-tool execution branches past validation
(agent.py 2634-5110) all share the delta shape captured by SingleDeltaShape, which is
everything the tool_call batch machinery reads, and are represented by that common
shape. -/
def single_tool_call_model (s : AgentStateM) : Delta :=
  match single_tool_dispatch s with
  | .errored d => d
  | .toHandler _ _ => { has_tool_call := some false, requested_tool := some none }

theorem tool_error_update_shape (nm : Option String) (args : List String)
    (tr : List TraceEntry) (msg : String) :
    (tool_error_update nm args tr msg).has_tool_call = some false
    ∧ (tool_error_update nm args tr msg).requested_tool = some none
    ∧ (tool_error_update nm args tr msg).requested_tools = none := by
  unfold tool_error_update attach_traces_and_loop_hint
  cases nm with
  | none => exact ⟨rfl, rfl, rfl⟩
  | some n =>
    by_cases htr : n ∈ tracked_tools <;>
      by_cases hld : loop_detected_of n args tr = true <;>
      simp [htr, hld]

theorem single_tool_call_model_shape : SingleDeltaShape single_tool_call_model := by
  intro t
  cases hreq : t.requested_tool with
  | none =>
    simp only [single_tool_call_model, single_tool_dispatch, hreq]
    exact tool_error_update_shape _ _ _ _
  | some l =>
    cases l with
    | nil =>
      simp only [single_tool_call_model, single_tool_dispatch, hreq]
      exact tool_error_update_shape _ _ _ _
    | cons n rest =>
      simp only [single_tool_call_model, single_tool_dispatch, hreq, Option.map_some']
      by_cases h1 : tool_name_mapping n = ""
      · simp only [if_pos h1]
        exact tool_error_update_shape _ _ _ _
      · by_cases h2 : tool_name_mapping n ∉ supported_tools t.entry_point
        · simp only [if_neg h1, if_pos h2]
          exact tool_error_update_shape _ _ _ _
        · simp [if_neg h1, if_neg h2]

/-- The aggregated-delta shape the batch loop establishes. -/
def AggShape (agg : Delta) : Prop :=
  agg.has_tool_call = some false ∧ agg.requested_tool = some none
    ∧ agg.requested_tools = none

theorem merge_states_deltas_shape {single : AgentStateM → Delta}
    (hs : SingleDeltaShape single) (agg : Delta) (t : AgentStateM)
    (hagg : agg.requested_tools = none) : AggShape (merge_states_deltas agg (single t)) := by
  obtain ⟨h1, h2, h3⟩ := hs t
  unfold AggShape merge_states_deltas
  rw [h1, h2, h3]
  exact ⟨rfl, rfl, hagg⟩

theorem tool_call_batch_go_preserves {single : AgentStateM → Delta}
    (hs : SingleDeltaShape single) :
    ∀ (batch : List (List String)) (ws : AgentStateM) (agg : Delta),
      AggShape agg → AggShape (tool_call_batch_go single batch ws agg) := by
  intro batch
  induction batch with
  | nil => intro ws agg h; exact h
  | cons cmd rest ih =>
    intro ws agg h
    simp only [tool_call_batch_go]
    split_ifs with hemp herr hcfg
    · exact ih ws agg h
    · exact merge_states_deltas_shape hs agg _ h.2.2
    · exact merge_states_deltas_shape hs agg _ h.2.2
    · exact ih _ _ (merge_states_deltas_shape hs agg _ h.2.2)

theorem tool_call_batch_go_start {single : AgentStateM → Delta}
    (hs : SingleDeltaShape single) (cmd : List String) (rest : List (List String))
    (ws : AgentStateM) (hcmd : cmd.isEmpty = false) :
    AggShape (tool_call_batch_go single (cmd :: rest) ws {}) := by
  have hbase : AggShape (merge_states_deltas {} (single
      { ws with requested_tool := some cmd, requested_tools := none })) :=
    merge_states_deltas_shape hs {} _ rfl
  simp only [tool_call_batch_go, hcmd, Bool.false_eq_true, if_false]
  split_ifs with herr hcfg
  · exact hbase
  · exact hbase
  · exact tool_call_batch_go_preserves hs rest _ _ hbase

/-- C6 (amended): after a multi-tool batch (N ≥ 2) the tool_call node delta clears
requested_tools (to null) and has_tool_call/requested_tool; for a singleton batch
(N = 1) the node returns the single-tool delta, which clears has_tool_call and
requested_tool but contains no requested_tools key at all, so the prior
requested_tools value survives in the merged graph state (re-execution is prevented
only because has_tool_call is false). -/
theorem tool_flags_cleared_after_batch :
    ∀ (single : AgentStateM → Delta), SingleDeltaShape single →
    ∀ (state : AgentStateM),
      (2 ≤ ((state.requested_tools.getD []).filter (fun item => !item.isEmpty)).length →
        (tool_call_node single state).requested_tools = some none
        ∧ (tool_call_node single state).has_tool_call = some false
        ∧ (tool_call_node single state).requested_tool = some none)
      ∧ (((state.requested_tools.getD []).filter (fun item => !item.isEmpty)).length = 1 →
        (tool_call_node single state).requested_tools = none
        ∧ (tool_call_node single state).has_tool_call = some false
        ∧ (tool_call_node single state).requested_tool = some none) := by
  intro single hs state
  rcases hnb : (state.requested_tools.getD []).filter (fun item => !item.isEmpty)
    with _ | ⟨a, _ | ⟨b, t⟩⟩
  · refine ⟨fun h2 => ?_, fun h1 => ?_⟩
    · rw [hnb] at h2
      simp at h2
    · rw [hnb] at h1
      simp at h1
  · refine ⟨fun h2 => ?_, fun _ => ?_⟩
    · rw [hnb] at h2
      simp at h2
    · have ha : tool_call_node single state
          = single { state with requested_tool := some a, requested_tools := none } := by
        simp only [tool_call_node, hnb]
      have hsi := hs { state with requested_tool := some a, requested_tools := none }
      rw [ha]
      exact ⟨hsi.2.2, hsi.1, hsi.2.1⟩
  · refine ⟨fun _ => ?_, fun h1 => ?_⟩
    · have hane : a.isEmpty = false := by
        have hmem : a ∈ (state.requested_tools.getD []).filter
            (fun item => !item.isEmpty) := by
          rw [hnb]
          simp
        have hp := List.of_mem_filter hmem
        simpa using hp
      obtain ⟨g1, g2, g3⟩ := tool_call_batch_go_start hs a (b :: t) state hane
      have hnode : tool_call_node single state
          = { tool_call_batch_go single (a :: b :: t) state {} with
              requested_tools := some none } := by
        have hne1 : ¬((tool_call_batch_go single (a :: b :: t) state {}).has_tool_call
            = none) := by
          rw [g1]
          simp
        have hne2 : ¬((tool_call_batch_go single (a :: b :: t) state {}).requested_tool
            = none) := by
          rw [g2]
          simp
        simp only [tool_call_node, hnb]
        rw [if_neg hne1, if_neg hne2]
      rw [hnode]
      exact ⟨rfl, g1, g2⟩
    · rw [hnb] at h1
      simp at h1

/-- The concrete session state for the C6 counterexample: a requested batch holding
exactly one tool call. -/
def c6_state : AgentStateM := { requested_tools := some [["bogus_tool"]] }

set_option maxRecDepth 8000 in
/-- Counterexample for C6 as stated: for a batch of length N = 1 the final delta of
the tool_call node contains no requested_tools key at all (it is not cleared to
null/empty), so the stale batch survives in the merged graph state. -/
theorem requested_tools_not_cleared_counterexample :
    (tool_call_node single_tool_call_model c6_state).requested_tools = none
    ∧ (apply_node_delta c6_state
        (tool_call_node single_tool_call_model c6_state)).requested_tools
      = some [["bogus_tool"]] := by decide

/-- Witness for C6 (amended) at concrete inputs: a two-tool batch ends with
requested_tools cleared to null and the tool flags cleared. -/
theorem tool_flags_cleared_after_batch_witness :
    (tool_call_node single_tool_call_model
        ({ requested_tools := some [["get_policies", "hr"], ["get_documentation", "iso"]] }
          : AgentStateM)).requested_tools = some none
    ∧ (tool_call_node single_tool_call_model
        ({ requested_tools := some [["get_policies", "hr"], ["get_documentation", "iso"]] }
          : AgentStateM)).has_tool_call = some false
    ∧ (tool_call_node single_tool_call_model
        ({ requested_tools := some [["get_policies", "hr"], ["get_documentation", "iso"]] }
          : AgentStateM)).requested_tool = some none :=
  (tool_flags_cleared_after_batch single_tool_call_model single_tool_call_model_shape
    ({ requested_tools := some [["get_policies", "hr"], ["get_documentation", "iso"]] }
      : AgentStateM)).1 (by decide)

-- ======================================================================
-- C1: the model-turn phase resets tool_should_loopback
-- ======================================================================

/-- The externally supplied outcome of one structured LLM call inside LLM_chat: the
parsed user-facing text, the parsed tool commands (each a nonempty [name, args...]
list in practice), the metered completion tokens, and whether the call failed after
all retries (the except branch, agent.py 2039-2046). -/
structure LLMOutcome where
  response_text : String
  tool_cmds : List (List String) := []
  total_tokens : Nat := 0
  failed : Bool := false
  deriving Repr, DecidableEq

/-- Embeds the LLM_chat node (agent.py 1538-2084) around one structured LLM call:
the in-place reset of tool_should_loopback on entry (line 1547), and the node delta
built at lines 2051-2080 (the delta always re-asserts tool_should_loopback = True;
tool flags are added when the reply requested tools; the workflow branch is inert in
this build since workflow_name is always None, line 2025).  Returns the locally
mutated state together with the delta handed to the graph. -/
def LLM_chat_node (o : LLMOutcome) (state : AgentStateM) : AgentStateM × Delta :=
  let state1 := { state with tool_should_loopback := true }
  let response_text := if o.failed then
    "Sorry, I ran into an issue processing that. Please try again."
    else o.response_text
  let effective_tool_cmds := if o.failed then [] else o.tool_cmds
  let total_tokens := if o.failed then 0 else o.total_tokens
  let tool_name : Option (List String) := effective_tool_cmds.head?
  let out : Delta :=
    { messages := some [{ content := response_text }]
      tokens_used := some (state.tokens_used + total_tokens)
      tool_should_loopback := some true }
  let out := match tool_name with
    | some cmd =>
      if cmd.isEmpty then out
      else
        let withTool := { out with
          has_tool_call := some true
          requested_tool := some (some cmd) }
        if effective_tool_cmds.isEmpty then withTool
        else { withTool with requested_tools := some (some effective_tool_cmds) }
    | none => out
  (state1, out)

/-- Embeds the workflow node (agent.py 5117-5139). -/
def workflow_node (state : AgentStateM) : Delta :=
  let wf := state.requested_workflow
  let wf_name : Option String := match wf with
    | some (n :: _) => some n
    | _ => none
  let wf_args : List String := match wf with
    | some (_ :: args) => args
    | _ => []
  let args_str := if wf_args.isEmpty then "" else joinComma wf_args
  let suffix := match wf_name with
    | none => ""
    | some n => " (" ++ n ++ (if args_str = "" then "" else " " ++ args_str) ++ ")"
  { messages := some [{ content :=
      "dummy workflow called, this is a normal dummy response, user knows what to do. "
        ++ suffix }]
    has_workflow := some false
    requested_workflow := some none }

/-- The phases of the routing state machine (graph nodes LLM_chat, tool_call,
workflow, ack_end; agent.py 5210-5262). -/
inductive Phase where
  | llm_chat
  | tool_phase
  | workflow_phase
  | ack_end
  deriving Repr, DecidableEq

/-- Embeds route_from_classify (agent.py 5183-5195). -/
def route_from_classify (s : AgentStateM) : Phase :=
  if s.has_workflow then .workflow_phase
  else if s.has_tool_call then .tool_phase
  else .ack_end

/-- Embeds route_from_tool_call (agent.py 5197-5208): loopback defaults to true. -/
def route_from_tool_call (s : AgentStateM) : Phase :=
  if s.tool_should_loopback then .llm_chat else .ack_end

/-- One turn of the routing graph, driven by the queued LLM outcomes and the
single-tool call, recording the graph state at entry of every phase.  Each node delta
is merged into the graph state through the LangGraph channels (apply_node_delta);
fuel bounds the number of phase transitions (the recursion limit). -/
def runGraph (single : AgentStateM → Delta) :
    Nat → List LLMOutcome → Phase → AgentStateM → List (Phase × AgentStateM)
  | 0, _, _, _ => []
  | fuel + 1, outs, ph, s =>
    (ph, s) ::
      match ph with
      | .llm_chat =>
        match outs with
        | [] => []
        | o :: rest =>
          let d := (LLM_chat_node o s).2
          let s2 := apply_node_delta s d
          runGraph single fuel rest (route_from_classify s2) s2
      | .tool_phase =>
        let d := single s
        let s2 := apply_node_delta s d
        runGraph single fuel outs (route_from_tool_call s2) s2
      | .workflow_phase =>
        let d := workflow_node s
        let s2 := apply_node_delta s d
        runGraph single fuel outs .llm_chat s2
      | .ack_end => []

theorem runGraph_head_state (single : AgentStateM → Delta) (fuel : Nat)
    (outs : List LLMOutcome) (ph : Phase) (s : AgentStateM) :
    ∀ b ∈ (runGraph single fuel outs ph s).head?, b.2 = s := by
  cases fuel with
  | zero => intro b hb; simp [runGraph] at hb
  | succ fuel =>
    intro b hb
    simp only [runGraph, List.head?_cons, Option.mem_def, Option.some_inj] at hb
    rw [← hb]

/-- C1: the LLM_chat node resets tool_should_loopback to true on entry, its delta
always carries tool_should_loopback = true, and consequently in every run of the
routing graph the graph state right after a model-turn phase has
tool_should_loopback = true — a stale false from a prior non-loopback tool call never
carries into the next model-turn leg. -/
theorem model_turn_loopback_reset :
    (∀ (o : LLMOutcome) (s : AgentStateM),
        ((LLM_chat_node o s).1).tool_should_loopback = true)
    ∧ (∀ (o : LLMOutcome) (s : AgentStateM),
        ((LLM_chat_node o s).2).tool_should_loopback = some true)
    ∧ (∀ (single : AgentStateM → Delta) (fuel : Nat) (outs : List LLMOutcome)
          (ph : Phase) (s : AgentStateM),
        List.Chain' (fun a b => a.1 = Phase.llm_chat → (b.2).tool_should_loopback = true)
          (runGraph single fuel outs ph s)) := by
  have hdelta : ∀ (o : LLMOutcome) (s : AgentStateM),
      ((LLM_chat_node o s).2).tool_should_loopback = some true := by
    intro o s
    simp only [LLM_chat_node]
    cases hh : (if o.failed = true then [] else o.tool_cmds).head? with
    | none => simp [hh]
    | some cmd =>
      by_cases hc : cmd.isEmpty = true <;>
        by_cases he : (if o.failed = true then [] else o.tool_cmds).isEmpty = true <;>
        simp [hh, hc, he]
  refine ⟨fun o s => by simp [LLM_chat_node], hdelta, ?_⟩
  intro single fuel
  induction fuel with
  | zero => intro outs ph s; simp [runGraph]
  | succ fuel ih =>
    intro outs ph s
    cases ph with
    | llm_chat =>
      cases outs with
      | nil => simp [runGraph]
      | cons o rest =>
        simp only [runGraph]
        rw [List.chain'_cons']
        constructor
        · intro b hb _
          have hbs := runGraph_head_state single fuel rest _ _ b hb
          rw [hbs]
          simp [apply_node_delta, hdelta o s]
        · exact ih rest _ _
    | tool_phase =>
      simp only [runGraph]
      rw [List.chain'_cons']
      constructor
      · intro b hb hcontra
        exact absurd hcontra (by simp)
      · exact ih outs _ _
    | workflow_phase =>
      simp only [runGraph]
      rw [List.chain'_cons']
      constructor
      · intro b hb hcontra
        exact absurd hcontra (by simp)
      · exact ih outs _ _
    | ack_end => simp [runGraph]

/-- Witness for C1 at a concrete run: a turn in which a non-loopback tool ran
(leaving tool_should_loopback = false in the graph state) still enters the next
model-turn leg with the flag reset to true. -/
theorem model_turn_loopback_reset_witness :
    ((LLM_chat_node ({ response_text := "hi" } : LLMOutcome)
        ({ tool_should_loopback := false } : AgentStateM)).1).tool_should_loopback = true
    ∧ ((LLM_chat_node ({ response_text := "hi" } : LLMOutcome)
        ({ tool_should_loopback := false } : AgentStateM)).2).tool_should_loopback
      = some true
    ∧ List.Chain' (fun a b => a.1 = Phase.llm_chat → (b.2).tool_should_loopback = true)
        (runGraph single_tool_call_model 4 [{ response_text := "hi" }] Phase.llm_chat
          ({ tool_should_loopback := false } : AgentStateM)) :=
  ⟨model_turn_loopback_reset.1 ({ response_text := "hi" } : LLMOutcome)
      ({ tool_should_loopback := false } : AgentStateM),
   model_turn_loopback_reset.2.1 ({ response_text := "hi" } : LLMOutcome)
      ({ tool_should_loopback := false } : AgentStateM),
   model_turn_loopback_reset.2.2 single_tool_call_model 4 [{ response_text := "hi" }]
      Phase.llm_chat ({ tool_should_loopback := false } : AgentStateM)⟩

-- ======================================================================
-- C7/C8: process_message — streamed folding, suppression, recursion limit
-- ======================================================================

/-- One step of the per-event folding in process_message (agent.py 736-777): the
accumulator is (last_ai, suppress_non_loopback).  A tool_call update carrying
tool_should_loopback = False sets the suppress flag; a nonempty message list updates
last_ai with the last AI message that has content; an empty message list from
tool_call clears last_ai. -/
def stream_fold_step (acc : Option String × Bool) (ev : String × Delta) :
    Option String × Bool :=
  let last_ai := acc.1
  let suppress := if ev.1 = "tool_call" ∧ ev.2.tool_should_loopback = some false
    then true else acc.2
  match ev.2.messages with
  | none => (last_ai, suppress)
  | some msgs =>
    if msgs.isEmpty then
      if ev.1 = "tool_call" then (none, suppress) else (last_ai, suppress)
    else
      match msgs.reverse.find? (fun m => !(m.content == "")) with
      | some m => (some m.content, suppress)
      | none => (last_ai, suppress)

/-- Embeds the tail of process_message after a successful stream (agent.py 826-848,
952): fold the per-node updates, infer the suppress flag from the final snapshot when
the stream did not surface it, and return None when suppressed, otherwise the
backfilled last assistant message (defaulting to the empty string). -/
def process_stream_result (events : List (String × Delta)) (final_loopback : Option Bool)
    (final_messages : List AMsg) : Option String :=
  let folded := events.foldl stream_fold_step (none, false)
  let suppress := if !folded.2 && final_loopback == some false then true else folded.2
  if suppress then none
  else
    let last_ai := match folded.1 with
      | some t => some t
      | none => (final_messages.reverse.find? (fun (m : AMsg) => !(m.content == ""))).map
          (fun (m : AMsg) => m.content)
    some (last_ai.getD "")

theorem stream_fold_step_snd (acc : Option String × Bool) (ev : String × Delta) :
    (stream_fold_step acc ev).2
      = if ev.1 = "tool_call" ∧ ev.2.tool_should_loopback = some false then true
        else acc.2 := by
  unfold stream_fold_step
  rcases hm : ev.2.messages with _ | msgs
  · rfl
  · dsimp only
    split_ifs with h1 h2 <;>
      first
        | rfl
        | (cases hf : msgs.reverse.find? (fun m => !(m.content == "")) <;> simp [hf])

theorem stream_fold_suppress (events : List (String × Delta)) :
    ∀ (acc : Option String × Bool),
      ((events.foldl stream_fold_step acc).2 = true
        ↔ acc.2 = true
          ∨ ∃ d, ("tool_call", d) ∈ events ∧ d.tool_should_loopback = some false) := by
  induction events with
  | nil => intro acc; simp
  | cons ev rest ih =>
    intro acc
    rw [List.foldl_cons, ih, stream_fold_step_snd]
    constructor
    · intro h
      rcases h with h | ⟨d, hd1, hd2⟩
      · by_cases hcond : ev.1 = "tool_call" ∧ ev.2.tool_should_loopback = some false
        · refine Or.inr ⟨ev.2, ?_, hcond.2⟩
          have hev : ("tool_call", ev.2) = ev := by
            rw [← hcond.1]
          rw [hev]
          exact List.mem_cons_self ev rest
        · rw [if_neg hcond] at h
          exact Or.inl h
      · exact Or.inr ⟨d, List.mem_cons_of_mem ev hd1, hd2⟩
    · intro h
      rcases h with h | ⟨d, hd1, hd2⟩
      · split_ifs with hcond
        · exact Or.inl rfl
        · exact Or.inl h
      · rcases List.mem_cons.mp hd1 with heq | hmem
        · have hcond : ev.1 = "tool_call" ∧ ev.2.tool_should_loopback = some false := by
            rw [← heq]
            exact ⟨rfl, hd2⟩
          rw [if_pos hcond]
          exact Or.inl rfl
        · exact Or.inr ⟨d, hmem, hd2⟩

/-- C7 (amended): process_message suppresses the visible response exactly when a
tool_call phase delta carries tool_should_loopback = false (or the final snapshot
shows that flag false) — whether or not the tool also produced messages — and in that
case returns null; otherwise it returns some response text. -/
theorem suppress_response_contract :
    (∀ (events : List (String × Delta)) (fl : Option Bool) (fmsgs : List AMsg),
        ((∃ d, ("tool_call", d) ∈ events ∧ d.tool_should_loopback = some false)
            ∨ fl = some false) →
        process_stream_result events fl fmsgs = none)
    ∧ (∀ (events : List (String × Delta)) (fl : Option Bool) (fmsgs : List AMsg),
        (∀ d, ("tool_call", d) ∈ events → d.tool_should_loopback ≠ some false) →
        fl ≠ some false →
        ∃ t, process_stream_result events fl fmsgs = some t) := by
  constructor
  · intro events fl fmsgs h
    simp only [process_stream_result]
    rcases h with h | h
    · have hs : (events.foldl stream_fold_step (none, false)).2 = true :=
        (stream_fold_suppress events (none, false)).mpr (Or.inr h)
      rw [hs]
      simp
    · by_cases hb : (events.foldl stream_fold_step (none, false)).2 = true
      · rw [hb]
        simp
      · have hs' : (events.foldl stream_fold_step (none, false)).2 = false := by
          simpa using hb
        rw [hs', h]
        simp
  · intro events fl fmsgs h1 h2
    simp only [process_stream_result]
    have hs : (events.foldl stream_fold_step (none, false)).2 = false := by
      by_cases hb : (events.foldl stream_fold_step (none, false)).2 = true
      · exfalso
        rcases (stream_fold_suppress events (none, false)).mp hb with hc | ⟨d, hd1, hd2⟩
        · simp at hc
        · exact h1 d hd1 hd2
      · simpa using hb
    have hfl : (fl == some false) = false := by
      cases fl with
      | none => rfl
      | some b =>
        cases b with
        | true => rfl
        | false => exact absurd rfl h2
    rw [hs, hfl]
    simp

/-- The tool_call delta of the C7 counterexample: a validation-style result that both
appends a message and requests no loopback. -/
def c7_delta : Delta :=
  { messages := some [{ content := "tool_validation_error: boom" }]
    tool_should_loopback := some false }

/-- Counterexample for C7 as stated: a tool_call delta that requests no loopback while
also producing a message still sets the suppress flag, and process_message returns
null — so the suppress flag is not set only when the tool produced no message. -/
theorem suppress_despite_message_counterexample :
    (c7_delta.messages.getD []).length = 1
    ∧ c7_delta.tool_should_loopback = some false
    ∧ process_stream_result [("tool_call", c7_delta)] none [] = none := by decide

/-- Witness for C7 (amended) at concrete inputs: a no-loopback tool_call event makes
the turn return null; a turn without such an event returns a response. -/
theorem suppress_response_contract_witness :
    process_stream_result [("tool_call", c7_delta)] none [] = none
    ∧ ∃ t, process_stream_result [("LLM_chat",
        ({ messages := some [{ content := "hello" }] } : Delta))] none [] = some t :=
  ⟨suppress_response_contract.1 [("tool_call", c7_delta)] none []
      (Or.inl ⟨c7_delta, by simp, rfl⟩),
   suppress_response_contract.2 [("LLM_chat",
        ({ messages := some [{ content := "hello" }] } : Delta))] none []
      (by intro d hd; simp at hd) (by decide)⟩

-- ======================================================================
-- C8: recursion-limit handling
-- ======================================================================

/-- The fixed user-facing message assembled in the GraphRecursionError handler
(agent.py 779-794), parameterized by the recursion limit and the exception text. -/
def recursion_limit_message (recursion_limit : Nat) (err : String) : String :=
  "⚠️ **Recursion Limit Reached**\n\nI\x27ve hit the maximum number of processing steps ("
    ++ toString recursion_limit
    ++ ") for this conversation. This usually happens when:\n\n"
    ++ "1. **Complex multi-step workflows** - The task required too many sequential operations\n"
    ++ "2. **Circular logic** - The agent got stuck in a loop trying to solve the problem\n"
    ++ "3. **Insufficient information** - Unable to complete the task with available data\n\n"
    ++ "**What you can do:**\n"
    ++ "- Try breaking down your request into smaller, more specific tasks\n"
    ++ "- Provide more specific instructions or constraints\n"
    ++ "- Restart the conversation with a fresh session\n\n"
    ++ "**Technical details:** " ++ err

/-- The session-store fields process_message touches around a turn. -/
structure SessionRec where
  pending_interrupt : Bool := false
  messages : List AMsg := []
  tokens_used : Nat := 0
  credits_consumed : ℚ := 0
  deriving DecidableEq

/-- How one graph stream terminates, as seen by process_message: a successful stream
with its events and final snapshot, a GraphRecursionError, or a cancellation. -/
inductive StreamOutcome where
  | finished (events : List (String × Delta)) (final_loopback : Option Bool)
      (final_messages : List AMsg)
  | recursionError (err : String)
  | cancelled
  deriving DecidableEq

/-- Start-of-turn session handling (agent.py 613-627): a pending interrupt is
consumed (cleared under the lock) before streaming; otherwise the session is
untouched. -/
def turn_start_session (sess : SessionRec) : SessionRec :=
  if sess.pending_interrupt then { sess with pending_interrupt := false } else sess

/-- Embeds the turn skeleton of process_message (agent.py 575-952): the pre-stream
session mutation, then per stream outcome — the recursion-error path returns the
fixed message and performs no session writes; a cancellation returns null with no
writes; a finished stream commits the snapshot fields, token accounting and clears
pending_interrupt, and returns the folded response. -/
def process_message_model (sess : SessionRec) (recursion_limit : Nat)
    (outcome : StreamOutcome) (turn_tokens : Nat) : Option String × SessionRec :=
  let sess1 := turn_start_session sess
  match outcome with
  | .recursionError err => (some (recursion_limit_message recursion_limit err), sess1)
  | .cancelled => (none, sess1)
  | .finished events fl fmsgs =>
    let resp := process_stream_result events fl fmsgs
    let sess2 : SessionRec :=
      { sess1 with
        messages := fmsgs
        pending_interrupt := false
        tokens_used := sess1.tokens_used + turn_tokens
        credits_consumed := sess1.credits_consumed
          + (if turn_tokens ≠ 0 then calculate_credits_consumed turn_tokens else 0) }
    (resp, sess2)

/-- C8: when the stream raises the recursion limit, the turn returns exactly the
fixed limit-exceeded message, the session is left exactly as it was at the start of
the turn (no fields written by the error path), and its pending_interrupt is false,
leaving the session usable for the next turn. -/
theorem recursion_limit_turn_contract :
    ∀ (sess : SessionRec) (limit : Nat) (err : String) (turn_tokens : Nat),
      (process_message_model sess limit (.recursionError err) turn_tokens).1
        = some (recursion_limit_message limit err)
      ∧ (process_message_model sess limit (.recursionError err) turn_tokens).2
        = turn_start_session sess
      ∧ ((process_message_model sess limit (.recursionError err) turn_tokens).2).pending_interrupt
        = false := by
  intro sess limit err turn_tokens
  refine ⟨rfl, rfl, ?_⟩
  show (turn_start_session sess).pending_interrupt = false
  unfold turn_start_session
  split_ifs with h
  · rfl
  · simpa using h

-- ======================================================================
-- C4: session resume from a durable snapshot
-- ======================================================================

/-- The context dict of a stored session, as far as the resume path touches it: the
entry_point key it overwrites, the scf_redirected key it sets for SCF redirects, and
the remaining (opaque) key-value pairs adopted untouched. -/
structure Ctx where
  entry_point : String := "project_view"
  scf_redirected : Bool := false
  extra : List (String × String) := []
  deriving Repr, DecidableEq

/-- The session dict rebuilt by _load_session_snapshot (agent.py 1429-1447). -/
structure StoredSession where
  messages : List LCMessage := []
  tokens_used : Nat := 0
  credits_consumed : ℚ := 0
  created_at : String := ""
  context : Ctx := {}
  deriving DecidableEq

/-- The value returned by _load_session_snapshot (agent.py 1449-1452): the rebuilt
session together with the snapshot owner user id. -/
structure Snapshot where
  user_id : Option String := none
  session : StoredSession := {}
  deriving DecidableEq

/-- Python `a or b` over optional strings (empty string and None are falsy). -/
def pyOrStr (a b : Option String) : Option String := if pyTruthy a then a else b

/-- Derivation of the fresh user id from the authenticated backend context
(agent.py 5302-5309): context.user_id or user_info.id or user_info.user_id or
user_info.sub. -/
def fresh_user_id_of (context_user_id ui_id ui_user_id ui_sub : Option String) :
    Option String :=
  pyOrStr (pyOrStr (pyOrStr context_user_id ui_id) ui_user_id) ui_sub

/-- The ValueError text raised on user mismatch (agent.py 5314-5317). -/
def resume_error_text : String :=
  "Unable to resume session: user mismatch or missing user information. Please start a new chat."

instance : DecidableEq (Except String StoredSession) := fun x y =>
  match x, y with
  | .error a, .error b =>
    if h : a = b then isTrue (by rw [h]) else isFalse (fun hq => h (Except.error.inj hq))
  | .error _, .ok _ => isFalse (fun hq => Except.noConfusion hq)
  | .ok _, .error _ => isFalse (fun hq => Except.noConfusion hq)
  | .ok a, .ok b =>
    if h : a = b then isTrue (by rw [h]) else isFalse (fun hq => h (Except.ok.inj hq))

/-- Result of the resume path: the restored session or the raised error, plus whether
the snapshot was deleted from the durable store. -/
structure ResumeOutcome where
  result : Except String StoredSession
  snapshot_deleted : Bool
  deriving DecidableEq

/-- Embeds the snapshot-resume branch of initialize_session (agent.py 5296-5338):
when the snapshot owner id or the fresh user id is missing/falsy, or the two ids
differ, the snapshot is deleted and initialization fails; on a match the stored
session is adopted, its context entry_point overwritten for the new connection and,
when the new entry point is scf_config, the scf_redirected flag set. -/
def initialize_session_resume (snapshot : Snapshot) (fresh_user_id : Option String)
    (entry_point : String) : ResumeOutcome :=
  if pyTruthy snapshot.user_id = false ∨ pyTruthy fresh_user_id = false
      ∨ snapshot.user_id.getD "" ≠ fresh_user_id.getD "" then
    { result := .error resume_error_text, snapshot_deleted := true }
  else
    let restored_context := snapshot.session.context
    let restored_context := { restored_context with entry_point := entry_point }
    let restored_context := if entry_point = "scf_config" then
        { restored_context with scf_redirected := true }
      else restored_context
    { result := .ok { snapshot.session with context := restored_context }
      snapshot_deleted := false }

/-- The concrete snapshot of the C4 counterexample. -/
def c4_snapshot : Snapshot :=
  { user_id := some "user-1"
    session := { context := { entry_point := "project_view", scf_redirected := false } } }

/-- Counterexample for C4 as stated: resuming with a matching user id into the
scf_config entry point does not adopt the stored session verbatim-except-entry-point —
the scf_redirected flag is also overwritten to true. -/
theorem resume_not_verbatim_counterexample :
    (initialize_session_resume c4_snapshot (some "user-1") "scf_config").result
      = .ok { c4_snapshot.session with
          context := { c4_snapshot.session.context with
            entry_point := "scf_config", scf_redirected := true } }
    ∧ (initialize_session_resume c4_snapshot (some "user-1") "scf_config").result
      ≠ .ok { c4_snapshot.session with
          context := { c4_snapshot.session.context with entry_point := "scf_config" } } := by
  decide

/-- C4 (amended): when the snapshot owner id or the fresh user id is missing, or the
two differ, the resume path deletes the snapshot and fails initialization with the
fixed error; when both are present and equal, the stored session is adopted verbatim
except that the context entry_point is overwritten with the new connection entry
point and, when that entry point is scf_config, the scf_redirected flag is set to
true. -/
theorem session_resume_contract :
    (∀ (snap : Snapshot) (fresh : Option String) (ep : String),
        (pyTruthy snap.user_id = false ∨ pyTruthy fresh = false
          ∨ snap.user_id.getD "" ≠ fresh.getD "") →
        initialize_session_resume snap fresh ep
          = { result := .error resume_error_text, snapshot_deleted := true })
    ∧ (∀ (snap : Snapshot) (fresh : Option String) (ep : String),
        pyTruthy snap.user_id = true → pyTruthy fresh = true →
        snap.user_id.getD "" = fresh.getD "" →
        initialize_session_resume snap fresh ep
          = { result := .ok { snap.session with
                context := { snap.session.context with
                  entry_point := ep
                  scf_redirected := if ep = "scf_config" then true
                    else snap.session.context.scf_redirected } }
              snapshot_deleted := false }) := by
  constructor
  · intro snap fresh ep h
    unfold initialize_session_resume
    rw [if_pos h]
  · intro snap fresh ep h1 h2 h3
    have hneg : ¬(pyTruthy snap.user_id = false ∨ pyTruthy fresh = false
        ∨ snap.user_id.getD "" ≠ fresh.getD "") := by
      push_neg
      exact ⟨by simp [h1], by simp [h2], h3⟩
    unfold initialize_session_resume
    rw [if_neg hneg]
    by_cases hep : ep = "scf_config"
    · simp [hep]
    · simp [hep]

/-- Witness for C4 (amended) at concrete inputs: a mismatched user id deletes the
snapshot and fails; a matching resume into project_view adopts the stored session
with only the entry point overwritten. -/
theorem session_resume_contract_witness :
    initialize_session_resume c4_snapshot (some "someone-else") "project_view"
      = { result := .error resume_error_text, snapshot_deleted := true }
    ∧ initialize_session_resume c4_snapshot (some "user-1") "dashboard"
      = { result := .ok { c4_snapshot.session with
            context := { c4_snapshot.session.context with
              entry_point := "dashboard"
              scf_redirected := if ("dashboard" : String) = "scf_config" then true
                else c4_snapshot.session.context.scf_redirected } }
          snapshot_deleted := false } :=
  ⟨session_resume_contract.1 c4_snapshot (some "someone-else") "project_view"
      (by decide),
   session_resume_contract.2 c4_snapshot (some "user-1") "dashboard"
      (by decide) (by decide) (by decide)⟩

end BlueMagma
